import Mathlib

/-!
Verification of the grocery price-optimization component
(`backend/price_optimizer.py`): the nutritional-equivalence table, the
price table, the substitute finder `find_cheaper_alternatives`, the
list-level analyzer `analyze_grocery_list_with_ai`, and the
auto-optimizer `auto_optimize_grocery_list`.

Python dictionaries are modelled as insertion-ordered association
lists; Python ints as `Nat`/`Int`; the price-ratio and percentage
arithmetic (Python floats over small integers) as `ℚ`;
`round(x, 1)` as round-half-to-even at one decimal place.  The
`last_updated` field of price entries (a wall-clock timestamp never
read by any computation) is omitted.  The optional LLM narrative step
is modelled as an `Option` argument: `some` is a successful, parsed
narrative, `none` is the failure path that triggers the template
fallback.
-/

/-- One entry of `PRICE_DATABASE`: price in INR per unit, the unit
label, and the vendor source.  (`last_updated` omitted: never read.) -/
structure PriceInfo where
  price : Nat
  unit : String
  source : String
deriving DecidableEq, Repr

/-- A macro profile: protein/carbs/fat grams and calories. -/
structure MacroProfile where
  protein : ℚ
  carbs : ℚ
  fat : ℚ
  calories : ℚ
deriving DecidableEq, Repr

/-- One entry of `NUTRITIONAL_EQUIVALENTS`: the ordered substitute
list, a macro profile and a category tag. -/
structure EquivInfo where
  alternatives : List String
  macro_profile : MacroProfile
  nutrition_type : String
deriving DecidableEq, Repr

/-- Table `NUTRITIONAL_EQUIVALENTS` from the source, in source order. -/
def NUTRITIONAL_EQUIVALENTS : List (String × EquivInfo) := [
  ("paneer", ⟨["tofu", "cottage cheese", "greek yogurt", "boiled eggs"],
    ⟨18, 1, 20, 265⟩, "high_protein_dairy"⟩),
  ("chicken breast", ⟨["turkey breast", "fish fillet", "tofu", "paneer", "chickpeas"],
    ⟨31, 0, 18/5, 165⟩, "lean_protein"⟩),
  ("avocado", ⟨["peanut butter", "almonds", "olive oil", "flaxseeds"],
    ⟨2, 9, 15, 160⟩, "healthy_fats"⟩),
  ("quinoa", ⟨["brown rice", "oats", "daliya", "whole wheat"],
    ⟨8, 39, 3, 222⟩, "complex_carbs"⟩),
  ("almonds", ⟨["walnuts", "cashews", "peanuts", "sunflower seeds"],
    ⟨21, 22, 49, 579⟩, "nuts_healthy_fats"⟩),
  ("salmon", ⟨["mackerel", "sardines", "tuna", "flaxseeds", "chia seeds"],
    ⟨25, 0, 13, 208⟩, "omega3_protein"⟩),
  ("greek yogurt", ⟨["hung curd", "paneer", "tofu", "cottage cheese"],
    ⟨10, 4, 5, 100⟩, "probiotic_protein"⟩),
  ("spinach", ⟨["kale", "methi", "broccoli", "cabbage"],
    ⟨3, 4, 0, 23⟩, "leafy_greens"⟩),
  ("sweet potato", ⟨["regular potato", "pumpkin", "carrots", "beetroot"],
    ⟨2, 20, 0, 86⟩, "complex_carbs_vitamins"⟩),
  ("oats", ⟨["daliya", "quinoa", "brown rice", "whole wheat"],
    ⟨17, 66, 7, 389⟩, "fiber_complex_carbs"⟩)]

/-- Table `PRICE_DATABASE` from the source, in source order. -/
def PRICE_DATABASE : List (String × PriceInfo) := [
  ("paneer", ⟨80, "100g", "blinkit"⟩),
  ("tofu", ⟨45, "100g", "bigbasket"⟩),
  ("cottage cheese", ⟨60, "100g", "blinkit"⟩),
  ("greek yogurt", ⟨70, "100g", "blinkit"⟩),
  ("boiled eggs", ⟨10, "1pc", "local"⟩),
  ("chicken breast", ⟨35, "100g", "blinkit"⟩),
  ("turkey breast", ⟨55, "100g", "bigbasket"⟩),
  ("fish fillet", ⟨50, "100g", "blinkit"⟩),
  ("chickpeas", ⟨12, "100g", "local"⟩),
  ("avocado", ⟨150, "1pc", "blinkit"⟩),
  ("peanut butter", ⟨40, "100g", "bigbasket"⟩),
  ("almonds", ⟨90, "100g", "blinkit"⟩),
  ("olive oil", ⟨60, "100ml", "bigbasket"⟩),
  ("flaxseeds", ⟨30, "100g", "local"⟩),
  ("quinoa", ⟨80, "100g", "bigbasket"⟩),
  ("brown rice", ⟨25, "100g", "blinkit"⟩),
  ("oats", ⟨20, "100g", "blinkit"⟩),
  ("daliya", ⟨18, "100g", "local"⟩),
  ("whole wheat", ⟨15, "100g", "local"⟩),
  ("walnuts", ⟨120, "100g", "blinkit"⟩),
  ("cashews", ⟨100, "100g", "blinkit"⟩),
  ("peanuts", ⟨25, "100g", "local"⟩),
  ("sunflower seeds", ⟨35, "100g", "local"⟩),
  ("salmon", ⟨180, "100g", "bigbasket"⟩),
  ("mackerel", ⟨80, "100g", "blinkit"⟩),
  ("sardines", ⟨60, "100g", "blinkit"⟩),
  ("tuna", ⟨100, "100g", "bigbasket"⟩),
  ("chia seeds", ⟨50, "100g", "bigbasket"⟩),
  ("hung curd", ⟨55, "100g", "blinkit"⟩),
  ("kale", ⟨40, "100g", "bigbasket"⟩),
  ("methi", ⟨15, "100g", "local"⟩),
  ("spinach", ⟨20, "100g", "local"⟩),
  ("broccoli", ⟨35, "100g", "blinkit"⟩),
  ("cabbage", ⟨12, "100g", "local"⟩),
  ("sweet potato", ⟨30, "100g", "blinkit"⟩),
  ("regular potato", ⟨15, "100g", "local"⟩),
  ("pumpkin", ⟨18, "100g", "local"⟩),
  ("carrots", ⟨20, "100g", "local"⟩),
  ("beetroot", ⟨22, "100g", "local"⟩)]

/-- Python `dict.get`: first binding of the key in insertion order. -/
def dictGet {α : Type} (key : String) : List (String × α) → Option α
  | [] => none
  | (k, v) :: rest => if k = key then some v else dictGet key rest

/-- Python dict assignment `d[k] = v`: replace in place, else append. -/
def dictInsert {α : Type} (key : String) (v : α) : List (String × α) → List (String × α)
  | [] => [(key, v)]
  | (k, v') :: rest =>
      if k = key then (key, v) :: rest else (k, v') :: dictInsert key v rest

/-- Python `s.lower().strip()`: lowercase every character, then drop
leading and trailing whitespace (done on the character list so it is
kernel-computable). -/
def lowerStrip (s : String) : String :=
  ⟨(((s.data.map Char.toLower).dropWhile Char.isWhitespace).reverse.dropWhile
      Char.isWhitespace).reverse⟩

/-- Round a rational to the nearest integer, ties to even (Python's
`round` on an exactly representable half).  `f` is the floor of `q`
and `r` the remainder of `q.num` over the denominator, so `q - f`
compares with `1/2` exactly as `2 * r` compares with `q.den`. -/
def roundHalfEven (q : ℚ) : ℤ :=
  let f : ℤ := q.num.fdiv q.den
  let r : ℤ := q.num - f * q.den
  if 2 * r < (q.den : ℤ) then f
  else if (q.den : ℤ) < 2 * r then f + 1
  else if f % 2 = 0 then f else f + 1

/-- Python `round(x, 1)`: scale by ten, round half to even, scale
back (written with `mkRat` so it is kernel-computable). -/
def pyRound1 (q : ℚ) : ℚ := mkRat (roundHalfEven (mkRat (q.num * 10) q.den)) 10

/-- Function `get_ingredient_price`: normalize and look up the price table. -/
def get_ingredient_price (ingredient : String) : Option PriceInfo :=
  dictGet (lowerStrip ingredient) PRICE_DATABASE

/-- One entry of the list returned by `find_cheaper_alternatives`. -/
structure Suggestion where
  alternative : String
  original_price : Nat
  alternative_price : Nat
  savings : ℤ
  savings_percent : ℚ
  nutrition_type : String
  source : String
deriving DecidableEq, Repr

/-- The loop body of `find_cheaper_alternatives`: for each listed
substitute with a price entry whose price ratio passes the threshold,
build the suggestion record. -/
def candidates (alternatives_data : EquivInfo) (original_price : PriceInfo)
    (max_price_ratio : ℚ) : List Suggestion :=
  alternatives_data.alternatives.filterMap (fun alt =>
    match get_ingredient_price alt with
    | none => none
    | some alt_price =>
        if mkRat alt_price.price original_price.price ≤ max_price_ratio then
          some ⟨alt, original_price.price, alt_price.price,
            (original_price.price : ℤ) - (alt_price.price : ℤ),
            pyRound1 (mkRat (((original_price.price : ℤ) - (alt_price.price : ℤ)) * 100)
              original_price.price),
            alternatives_data.nutrition_type, alt_price.source⟩
        else none)

/-- Stable insertion keeping savings in descending order: an element
goes after every element with at least its savings (ties keep table
order, as Python's stable `sort(reverse=True)` does). -/
def insertDesc (x : Suggestion) : List Suggestion → List Suggestion
  | [] => [x]
  | y :: ys => if y.savings < x.savings then x :: y :: ys else y :: insertDesc x ys

/-- The sort call `cheaper_alternatives.sort(key=savings, reverse=True)`:
stable descending sort by savings. -/
def sortBySavingsDesc : List Suggestion → List Suggestion
  | [] => []
  | x :: xs => insertDesc x (sortBySavingsDesc xs)

/-- Function `find_cheaper_alternatives`: guard on both tables, collect
passing substitutes, sort by savings descending. -/
def find_cheaper_alternatives (ingredient : String) (max_price_ratio : ℚ) : List Suggestion :=
  match dictGet (lowerStrip ingredient) NUTRITIONAL_EQUIVALENTS with
  | none => []
  | some alternatives_data =>
      match get_ingredient_price (lowerStrip ingredient) with
      | none => []
      | some original_price =>
          sortBySavingsDesc (candidates alternatives_data original_price max_price_ratio)

example : (find_cheaper_alternatives "paneer" (mkRat 4 5)).map (fun s => (s.alternative, s.savings)) =
    [("boiled eggs", 70), ("tofu", 35), ("cottage cheese", 20)] := by decide

example : (find_cheaper_alternatives "chicken breast" (mkRat 4 5)).map
    (fun s => (s.alternative, s.savings)) = [("chickpeas", 23)] := by decide

example : find_cheaper_alternatives "rice" (mkRat 3 5) = [] := by decide

/-- One recommended swap inside the analysis summary. -/
structure SwapRec where
  original : String
  replacement : String
  reason : String
  savings : ℤ
deriving DecidableEq, Repr

/-- The analysis payload `ai_analysis`: either parsed from the LLM response or
built by the template fallback. -/
structure AiAnalysis where
  recommended_swaps : List SwapRec
  total_savings : ℤ
  nutrition_notes : String
  personalized_advice : String
deriving DecidableEq, Repr

/-- The dictionary returned by `analyze_grocery_list_with_ai`. -/
structure AnalyzeResult where
  success : Bool
  ai_analysis : AiAnalysis
  all_possible_swaps : List (String × List Suggestion)
  original_cost : Nat
  optimized_cost : Nat
  max_savings : ℤ
deriving DecidableEq, Repr

/-- One iteration of the cost loop in `analyze_grocery_list_with_ai`:
add the item's price to the original total; if it has cheaper
alternatives record them under the item's (raw) name and charge the
best alternative's price, otherwise charge the item's own price. -/
def computeSwapsStep (acc : List (String × List Suggestion) × Nat × Nat)
    (ingredient : String) : List (String × List Suggestion) × Nat × Nat :=
  let price : Nat := match get_ingredient_price ingredient with
    | some p => p.price
    | none => 0
  let total_original_cost := acc.2.1 + price
  match find_cheaper_alternatives ingredient (mkRat 4 5) with
  | best :: rest =>
      (dictInsert ingredient (best :: rest) acc.1, total_original_cost,
        acc.2.2 + best.alternative_price)
  | [] => (acc.1, total_original_cost, acc.2.2 + price)

/-- The swap/cost computation of `analyze_grocery_list_with_ai`,
performed before (and independently of) the LLM call. -/
def computeSwaps (grocery_list : List String) :
    List (String × List Suggestion) × Nat × Nat :=
  grocery_list.foldl computeSwapsStep ([], 0, 0)

/-- The template fallback of the `except` branch: best swap for each
of the first three entries of `all_swaps`. -/
def fallbackTopSwaps (all_swaps : List (String × List Suggestion)) : List SwapRec :=
  (all_swaps.take 3).filterMap (fun p =>
    match p.2 with
    | best_alt :: _ =>
        some ⟨p.1, best_alt.alternative,
          "Save ₹" ++ toString best_alt.savings ++ " (" ++
            toString best_alt.savings_percent ++ "% cheaper)",
          best_alt.savings⟩
    | [] => none)

/-- Function `analyze_grocery_list_with_ai`.  The LLM narrative step is an
`Option` argument: `some ai` is a successful call whose response
parsed to `ai`; `none` is the `except` path (API failure or
unparseable output), which substitutes the template summary.  The
numeric fields are computed before the call in both cases.  `user_goal`
only feeds the prompt, so it does not touch the computation. -/
def analyze_grocery_list_with_ai (grocery_list : List String) (user_goal : String)
    (narrative : Option AiAnalysis) : AnalyzeResult :=
  match computeSwaps grocery_list with
  | (all_swaps, total_original_cost, total_optimized_cost) =>
      match narrative with
      | some ai_response =>
          ⟨true, ai_response, all_swaps, total_original_cost, total_optimized_cost,
            (total_original_cost : ℤ) - (total_optimized_cost : ℤ)⟩
      | none =>
          ⟨true,
            ⟨fallbackTopSwaps all_swaps,
              (total_original_cost : ℤ) - (total_optimized_cost : ℤ),
              "All alternatives maintain similar nutritional profiles.",
              "Focus on swapping expensive items first for maximum savings!"⟩,
            all_swaps, total_original_cost, total_optimized_cost,
            (total_original_cost : ℤ) - (total_optimized_cost : ℤ)⟩

/-- One entry of `swaps_made` in `auto_optimize_grocery_list`. -/
structure MadeSwap where
  original : String
  replacement : String
  savings : ℤ
  savings_percent : ℚ
deriving DecidableEq, Repr

/-- The dictionary returned by `auto_optimize_grocery_list`. -/
structure AutoOptResult where
  original_list : List String
  optimized_list : List String
  swaps_made : List MadeSwap
  total_savings : ℤ
  budget_mode : Bool
deriving DecidableEq, Repr

/-- The threshold passed to `find_cheaper_alternatives` by
`auto_optimize_grocery_list`: `0.8` in budget mode, else `0.6`. -/
def ratioFor (budget_mode : Bool) : ℚ := if budget_mode then mkRat 4 5 else mkRat 3 5

/-- The loop of `auto_optimize_grocery_list`, returning the optimized
list, the swaps made and the total savings (processed left to right;
each iteration appends one item to the optimized list). -/
def autoLoop (budget_mode : Bool) : List String → List String × List MadeSwap × ℤ
  | [] => ([], [], 0)
  | ingredient :: rest =>
      let r := autoLoop budget_mode rest
      match find_cheaper_alternatives ingredient (ratioFor budget_mode) with
      | best_alt :: _ =>
          if budget_mode = true ∨ best_alt.savings > 20 then
            (best_alt.alternative :: r.1,
              ⟨ingredient, best_alt.alternative, best_alt.savings,
                best_alt.savings_percent⟩ :: r.2.1,
              best_alt.savings + r.2.2)
          else (ingredient :: r.1, r.2.1, r.2.2)
      | [] => (ingredient :: r.1, r.2.1, r.2.2)

/-- Function `auto_optimize_grocery_list`. -/
def auto_optimize_grocery_list (grocery_list : List String) (budget_mode : Bool) :
    AutoOptResult :=
  ⟨grocery_list, (autoLoop budget_mode grocery_list).1,
    (autoLoop budget_mode grocery_list).2.1,
    (autoLoop budget_mode grocery_list).2.2, budget_mode⟩

example : (analyze_grocery_list_with_ai ["paneer", "chicken breast"] "weight_loss" none).original_cost = 115 := by decide

example : (analyze_grocery_list_with_ai ["paneer", "chicken breast"] "weight_loss" none).optimized_cost = 22 := by decide

example : (auto_optimize_grocery_list ["unicorn meat"] true).optimized_list = ["unicorn meat"] := by decide

example : (auto_optimize_grocery_list ["rice"] false).optimized_list = ["rice"] := by decide

example : (auto_optimize_grocery_list ["paneer"] true).swaps_made =
    [⟨"paneer", "boiled eggs", 70, mkRat 175 2⟩] := by decide

/-! ### Helper lemmas about the stable sort and the candidate scan -/

theorem insertDesc_perm (x : Suggestion) (l : List Suggestion) :
    List.Perm (insertDesc x l) (x :: l) := by
  induction l with
  | nil => simp [insertDesc]
  | cons y ys ih =>
      simp only [insertDesc]
      by_cases h : y.savings < x.savings
      · simp [h]
      · rw [if_neg h]
        exact (ih.cons y).trans (List.Perm.swap x y ys)

theorem sortBySavingsDesc_perm (l : List Suggestion) : List.Perm (sortBySavingsDesc l) l := by
  induction l with
  | nil => simp [sortBySavingsDesc]
  | cons x xs ih => exact (insertDesc_perm x (sortBySavingsDesc xs)).trans (ih.cons x)

theorem insertDesc_pairwise (x : Suggestion) (l : List Suggestion)
    (h : l.Pairwise (fun a b => b.savings ≤ a.savings)) :
    (insertDesc x l).Pairwise (fun a b => b.savings ≤ a.savings) := by
  induction l with
  | nil => simp [insertDesc]
  | cons y ys ih =>
      rcases List.pairwise_cons.mp h with ⟨hy, hys⟩
      simp only [insertDesc]
      by_cases hxy : y.savings < x.savings
      · rw [if_pos hxy]
        refine List.pairwise_cons.mpr ⟨?_, h⟩
        intro z hz
        rcases List.mem_cons.mp hz with rfl | hz'
        · exact le_of_lt hxy
        · exact le_trans (hy z hz') (le_of_lt hxy)
      · rw [if_neg hxy]
        refine List.pairwise_cons.mpr ⟨?_, ih hys⟩
        intro z hz
        rcases List.mem_cons.mp ((insertDesc_perm x ys).mem_iff.mp hz) with rfl | hz'
        · exact le_of_not_lt hxy
        · exact hy z hz'

theorem sortBySavingsDesc_pairwise (l : List Suggestion) :
    (sortBySavingsDesc l).Pairwise (fun a b => b.savings ≤ a.savings) := by
  induction l with
  | nil => simp [sortBySavingsDesc]
  | cons x xs ih => exact insertDesc_pairwise x (sortBySavingsDesc xs) ih

theorem find_cheaper_alternatives_pairwise (ingredient : String) (max_price_ratio : ℚ) :
    (find_cheaper_alternatives ingredient max_price_ratio).Pairwise
      (fun a b => b.savings ≤ a.savings) := by
  unfold find_cheaper_alternatives
  cases dictGet (lowerStrip ingredient) NUTRITIONAL_EQUIVALENTS with
  | none => simp
  | some alternatives_data =>
      cases get_ingredient_price (lowerStrip ingredient) with
      | none => simp
      | some original_price => exact sortBySavingsDesc_pairwise _

/-- Whether a substitute has a price entry passing the ratio test
(the acceptance condition of the loop in `find_cheaper_alternatives`). -/
def altOk (alt : String) (original_price : PriceInfo) (max_price_ratio : ℚ) : Bool :=
  match get_ingredient_price alt with
  | none => false
  | some alt_price => decide (mkRat alt_price.price original_price.price ≤ max_price_ratio)

/-- Whether a name has a price entry with price at most `bound`. -/
def priceAtMost (alt : String) (bound : Nat) : Bool :=
  match get_ingredient_price alt with
  | none => false
  | some ap => decide (ap.price ≤ bound)

theorem map_alternative_candidates (d : EquivInfo) (p : PriceInfo) (r : ℚ) :
    (candidates d p r).map (fun s => s.alternative) =
      d.alternatives.filter (fun alt => altOk alt p r) := by
  unfold candidates
  induction d.alternatives with
  | nil => rfl
  | cons a t ih =>
      simp only [List.filterMap_cons, List.filter_cons]
      cases hga : get_ingredient_price a with
      | none => simpa [altOk, hga] using ih
      | some ap =>
          by_cases hr : mkRat ap.price p.price ≤ r
          · simpa [altOk, hga, hr] using ih
          · simpa [altOk, hga, hr] using ih

/-- What one loop iteration of `auto_optimize_grocery_list` appends to
the optimized list for a given item: the best alternative when the
swap condition holds, else the item itself. -/
def autoTransform (budget_mode : Bool) (ingredient : String) : String :=
  match find_cheaper_alternatives ingredient (ratioFor budget_mode) with
  | best_alt :: _ =>
      if budget_mode = true ∨ best_alt.savings > 20 then best_alt.alternative
      else ingredient
  | [] => ingredient

/-- What one loop iteration of `auto_optimize_grocery_list` appends to
`swaps_made`: `none` exactly when the item has no qualifying
substitute and passes through unchanged. -/
def autoSwapOf (budget_mode : Bool) (ingredient : String) : Option MadeSwap :=
  match find_cheaper_alternatives ingredient (ratioFor budget_mode) with
  | best_alt :: _ =>
      if budget_mode = true ∨ best_alt.savings > 20 then
        some ⟨ingredient, best_alt.alternative, best_alt.savings,
          best_alt.savings_percent⟩
      else none
  | [] => none

theorem autoLoop_fst (m : Bool) (l : List String) :
    (autoLoop m l).1 = l.map (autoTransform m) := by
  induction l with
  | nil => rfl
  | cons a t ih =>
      simp only [autoLoop, List.map_cons, autoTransform]
      cases hf : find_cheaper_alternatives a (ratioFor m) with
      | nil => simp [hf, ih]
      | cons best_alt rest =>
          by_cases hb : m = true ∨ best_alt.savings > 20
          · simp [hf, hb, ih]
          · simp [hf, hb, ih]

theorem autoLoop_swaps (m : Bool) (l : List String) :
    (autoLoop m l).2.1 = l.filterMap (autoSwapOf m) := by
  induction l with
  | nil => rfl
  | cons a t ih =>
      simp only [autoLoop, List.filterMap_cons, autoSwapOf]
      cases hf : find_cheaper_alternatives a (ratioFor m) with
      | nil => simp [hf, ih]
      | cons best_alt rest =>
          by_cases hb : m = true ∨ best_alt.savings > 20
          · simp [hf, hb, ih]
          · simp [hf, hb, ih]

theorem autoLoop_total (m : Bool) (l : List String) :
    (autoLoop m l).2.2 = ((autoLoop m l).2.1.map (fun w => w.savings)).sum := by
  induction l with
  | nil => rfl
  | cons a t ih =>
      simp only [autoLoop]
      cases hf : find_cheaper_alternatives a (ratioFor m) with
      | nil => simpa [hf] using ih
      | cons best_alt rest =>
          by_cases hb : m = true ∨ best_alt.savings > 20
          · simp [hf, hb, ih]
          · simp [hf, hb, ih]

theorem autoTransform_eq_of_swap_none (m : Bool) (ingredient : String)
    (hq : autoSwapOf m ingredient = none) : autoTransform m ingredient = ingredient := by
  unfold autoSwapOf at hq
  unfold autoTransform
  cases hf : find_cheaper_alternatives ingredient (ratioFor m) with
  | nil => rfl
  | cons best_alt rest =>
      rw [hf] at hq
      by_cases hb : m = true ∨ best_alt.savings > 20
      · simp [hb] at hq
      · simp [hb]

theorem autoSwapOf_spec (m : Bool) (a : String) (s : MadeSwap)
    (h : autoSwapOf m a = some s) :
    s.original = a ∧
    ((find_cheaper_alternatives a (ratioFor m)).head?).map (fun b => b.alternative) =
      some s.replacement ∧
    ((find_cheaper_alternatives a (ratioFor m)).head?).map (fun b => b.savings) =
      some s.savings := by
  unfold autoSwapOf at h
  cases hf : find_cheaper_alternatives a (ratioFor m) with
  | nil => rw [hf] at h; cases h
  | cons best_alt rest =>
      rw [hf] at h
      by_cases hb : m = true ∨ best_alt.savings > 20
      · simp only [hb, if_true, ite_true, Option.some_inj] at h
        subst h
        simp
      · simp [hb] at h

/-! ### Claims about `find_cheaper_alternatives` and the auto-optimizer -/

/-- Claim C4: for every ingredient and every threshold, the list
returned by `find_cheaper_alternatives` is sorted by descending
absolute savings: for any two results at indices `i < j`, the one at
`i` saves at least as much as the one at `j`. -/
theorem find_alternatives_sorted_desc (ingredient : String) (max_price_ratio : ℚ)
    (i j : ℕ) (a b : Suggestion) (hij : i < j)
    (ha : (find_cheaper_alternatives ingredient max_price_ratio)[i]? = some a)
    (hb : (find_cheaper_alternatives ingredient max_price_ratio)[j]? = some b) :
    b.savings ≤ a.savings := by
  have hp := find_cheaper_alternatives_pairwise ingredient max_price_ratio
  obtain ⟨hi, rfl⟩ := List.getElem?_eq_some.mp ha
  obtain ⟨hj, rfl⟩ := List.getElem?_eq_some.mp hb
  exact List.pairwise_iff_getElem.mp hp i j hi hj hij

/-- Witness for C4: `find_cheaper_alternatives("paneer", 0.8)` puts
boiled eggs (savings 70) before tofu (savings 35). -/
theorem find_alternatives_sorted_desc_paneer :
    (0 : ℕ) < 1 ∧
    (find_cheaper_alternatives "paneer" (mkRat 4 5))[0]? =
      some ⟨"boiled eggs", 80, 10, 70, mkRat 175 2, "high_protein_dairy", "local"⟩ ∧
    (find_cheaper_alternatives "paneer" (mkRat 4 5))[1]? =
      some ⟨"tofu", 80, 45, 35, mkRat 219 5, "high_protein_dairy", "bigbasket"⟩ ∧
    (⟨"tofu", 80, 45, 35, mkRat 219 5, "high_protein_dairy", "bigbasket"⟩ :
        Suggestion).savings ≤
      (⟨"boiled eggs", 80, 10, 70, mkRat 175 2, "high_protein_dairy", "local"⟩ :
        Suggestion).savings :=
  ⟨by decide, by decide, by decide,
    find_alternatives_sorted_desc "paneer" (mkRat 4 5) 0 1 _ _ (by decide)
      (by decide) (by decide)⟩

/-- Claim C5: for every ingredient name absent (after normalization)
from the equivalence table or from the price table, and every
threshold, `find_cheaper_alternatives` returns the empty list. -/
theorem find_alternatives_missing_returns_nil (ingredient : String)
    (max_price_ratio : ℚ)
    (h : dictGet (lowerStrip ingredient) NUTRITIONAL_EQUIVALENTS = none ∨
      get_ingredient_price (lowerStrip ingredient) = none) :
    find_cheaper_alternatives ingredient max_price_ratio = [] := by
  unfold find_cheaper_alternatives
  rcases h with h | h
  · simp [h]
  · cases hne : dictGet (lowerStrip ingredient) NUTRITIONAL_EQUIVALENTS with
    | none => simp [hne]
    | some d => simp [hne, h]

/-- Witness for C5: "rice" is in neither table and yields `[]`. -/
theorem find_alternatives_missing_returns_nil_rice :
    (dictGet (lowerStrip "rice") NUTRITIONAL_EQUIVALENTS = none ∨
      get_ingredient_price (lowerStrip "rice") = none) ∧
    find_cheaper_alternatives "rice" (mkRat 4 5) = [] :=
  ⟨Or.inl (by decide),
    find_alternatives_missing_returns_nil "rice" (mkRat 4 5) (Or.inl (by decide))⟩

/-- Claim C8: in conservative (non-budget) mode,
`auto_optimize_grocery_list` never substitutes an item whose best
candidate (at the conservative threshold 0.6) saves at most 20
currency units — including items with no candidates at all. -/
theorem auto_optimize_conservative_floor (l : List String) (i : ℕ)
    (ingredient : String) (hi : l[i]? = some ingredient)
    (h : ∀ best_alt : Suggestion,
      (find_cheaper_alternatives ingredient (mkRat 3 5)).head? = some best_alt →
      best_alt.savings ≤ 20) :
    (auto_optimize_grocery_list l false).optimized_list[i]? = some ingredient := by
  show ((autoLoop false l).1)[i]? = some ingredient
  rw [autoLoop_fst, List.getElem?_map, hi]
  have ht : autoTransform false ingredient = ingredient := by
    unfold autoTransform
    cases hf : find_cheaper_alternatives ingredient (ratioFor false) with
    | nil => rfl
    | cons best_alt rest =>
        have hle : best_alt.savings ≤ 20 := by
          apply h
          rw [show (mkRat 3 5 : ℚ) = ratioFor false from rfl, hf]
          rfl
        have hnot : ¬ (false = true ∨ best_alt.savings > 20) := by
          rintro (hc | hc)
          · exact Bool.false_ne_true hc
          · omega
        simp only [hnot, if_false, ite_false]
  simp [ht]

/-- Witness for C8: `["rice"]` has no candidate at all in
conservative mode, so the optimized list keeps "rice" at position 0. -/
theorem auto_optimize_conservative_floor_rice :
    (["rice"] : List String)[0]? = some "rice" ∧
    find_cheaper_alternatives "rice" (mkRat 3 5) = [] ∧
    (auto_optimize_grocery_list ["rice"] false).optimized_list[0]? = some "rice" := by
  refine ⟨by decide, by decide, ?_⟩
  apply auto_optimize_conservative_floor ["rice"] 0 "rice" (by decide)
  intro best_alt hb
  rw [show (find_cheaper_alternatives "rice" (mkRat 3 5)) = [] from by decide] at hb
  cases hb

/-- Claim C9: for every input list and both modes, the optimized list
has the same length as the input with positional correspondence; an
item with no qualifying substitute (`autoSwapOf` is `none` for it,
which covers names absent from both tables) stays unchanged at its
position and contributes nothing to `swaps_made` — the swap list is
exactly the `filterMap` of the per-item swap decision. -/
theorem auto_optimize_preserves_unmatched_items (l : List String) (m : Bool)
    (i : ℕ) (ingredient : String) (hi : l[i]? = some ingredient)
    (hq : autoSwapOf m ingredient = none) :
    (auto_optimize_grocery_list l m).optimized_list.length = l.length ∧
    (auto_optimize_grocery_list l m).optimized_list[i]? = some ingredient ∧
    (auto_optimize_grocery_list l m).swaps_made = l.filterMap (autoSwapOf m) := by
  refine ⟨?_, ?_, autoLoop_swaps m l⟩
  · show ((autoLoop m l).1).length = l.length
    rw [autoLoop_fst, List.length_map]
  · show ((autoLoop m l).1)[i]? = some ingredient
    rw [autoLoop_fst, List.getElem?_map, hi]
    simp [autoTransform_eq_of_swap_none m ingredient hq]

/-- Witness for C9: "unicorn meat" is absent from both tables; the
aggressive-mode run keeps it, with zero swaps and zero savings. -/
theorem auto_optimize_preserves_unmatched_items_unicorn :
    (["unicorn meat"] : List String)[0]? = some "unicorn meat" ∧
    autoSwapOf true "unicorn meat" = none ∧
    (auto_optimize_grocery_list ["unicorn meat"] true).optimized_list.length = 1 ∧
    (auto_optimize_grocery_list ["unicorn meat"] true).optimized_list[0]? =
      some "unicorn meat" ∧
    (auto_optimize_grocery_list ["unicorn meat"] true).swaps_made = [] ∧
    (auto_optimize_grocery_list ["unicorn meat"] true).total_savings = 0 := by
  have h := auto_optimize_preserves_unmatched_items ["unicorn meat"] true 0
    "unicorn meat" (by decide) (by decide)
  exact ⟨by decide, by decide, h.1, h.2.1, by decide, by decide⟩

/-- Claim C10: for every input list and both modes, `total_savings`
equals the sum of the `savings` fields of `swaps_made`, and every
swap's replacement (and recorded savings) comes from the first,
highest-savings element of the sorted alternatives of its item. -/
theorem auto_optimize_total_savings_sum (l : List String) (m : Bool) (s : MadeSwap)
    (hs : s ∈ (auto_optimize_grocery_list l m).swaps_made) :
    (auto_optimize_grocery_list l m).total_savings =
      ((auto_optimize_grocery_list l m).swaps_made.map (fun w => w.savings)).sum ∧
    ((find_cheaper_alternatives s.original (ratioFor m)).head?).map
      (fun b => b.alternative) = some s.replacement ∧
    ((find_cheaper_alternatives s.original (ratioFor m)).head?).map
      (fun b => b.savings) = some s.savings := by
  refine ⟨autoLoop_total m l, ?_⟩
  have hs' : s ∈ l.filterMap (autoSwapOf m) := by
    rw [← autoLoop_swaps]
    exact hs
  obtain ⟨a, ha, hsw⟩ := List.mem_filterMap.mp hs'
  obtain ⟨ho, h1, h2⟩ := autoSwapOf_spec m a s hsw
  rw [ho]
  exact ⟨h1, h2⟩

/-- Witness for C10: the budget-mode run on `["paneer"]` makes the
paneer→boiled eggs swap; its totals and head-of-alternatives facts. -/
theorem auto_optimize_total_savings_sum_paneer :
    (⟨"paneer", "boiled eggs", 70, mkRat 175 2⟩ : MadeSwap) ∈
      (auto_optimize_grocery_list ["paneer"] true).swaps_made ∧
    (auto_optimize_grocery_list ["paneer"] true).total_savings =
      (((auto_optimize_grocery_list ["paneer"] true).swaps_made).map
        (fun w => w.savings)).sum ∧
    ((find_cheaper_alternatives "paneer" (ratioFor true)).head?).map
      (fun b => b.alternative) = some "boiled eggs" ∧
    ((find_cheaper_alternatives "paneer" (ratioFor true)).head?).map
      (fun b => b.savings) = some 70 := by
  have h := auto_optimize_total_savings_sum ["paneer"] true
    ⟨"paneer", "boiled eggs", 70, mkRat 175 2⟩ (by decide)
  exact ⟨by decide, h.1, h.2.1, h.2.2⟩

/-- At threshold `1`, the ratio test is exactly "priced at most the
original's price" (the original price being positive). -/
theorem altOk_one (alt : String) (p : PriceInfo) (hp : 0 < p.price) :
    altOk alt p 1 = priceAtMost alt p.price := by
  unfold altOk priceAtMost
  cases hga : get_ingredient_price alt with
  | none => rfl
  | some ap =>
      simp only [decide_eq_decide]
      rw [Rat.mkRat_eq_div]
      rw [div_le_one (by exact_mod_cast hp)]
      constructor
      · intro h; exact_mod_cast h
      · intro h; exact_mod_cast h

/-- Counterexample to C2 as stated: "turkey breast" is listed as a
substitute for "chicken breast" and has a price entry, yet
`find_cheaper_alternatives("chicken breast", 1.0)` does not return it
(its price 55 exceeds chicken breast's 35, failing the ratio test). -/
theorem find_alternatives_ratio_one_omits_pricier_substitute :
    (dictGet (lowerStrip "chicken breast") NUTRITIONAL_EQUIVALENTS).map
      (fun e => decide ("turkey breast" ∈ e.alternatives)) = some true ∧
    get_ingredient_price "turkey breast" ≠ none ∧
    "turkey breast" ∉ (find_cheaper_alternatives "chicken breast" 1).map
      (fun s => s.alternative) := by decide

/-- Claim C2 (amended): for every ingredient X present in both tables
(with positive price and duplicate-free substitute list),
`find_cheaper_alternatives(X, 1.0)` returns exactly those substitutes
of X's equivalence entry that have a price entry with price at most
X's own price, with no omissions and no duplicates. -/
theorem find_alternatives_ratio_one_characterization (ingredient alt : String)
    (entry : EquivInfo) (priceX : PriceInfo)
    (h1 : dictGet (lowerStrip ingredient) NUTRITIONAL_EQUIVALENTS = some entry)
    (h2 : get_ingredient_price (lowerStrip ingredient) = some priceX)
    (hpos : 0 < priceX.price) (hnd : entry.alternatives.Nodup) :
    ((find_cheaper_alternatives ingredient 1).map (fun s => s.alternative)).Nodup ∧
    (alt ∈ (find_cheaper_alternatives ingredient 1).map (fun s => s.alternative) ↔
      alt ∈ entry.alternatives ∧ priceAtMost alt priceX.price = true) := by
  have hfind : find_cheaper_alternatives ingredient 1 =
      sortBySavingsDesc (candidates entry priceX 1) := by
    unfold find_cheaper_alternatives
    rw [h1, h2]
  have hperm :
      List.Perm ((find_cheaper_alternatives ingredient 1).map (fun s => s.alternative))
        ((candidates entry priceX 1).map (fun s => s.alternative)) := by
    rw [hfind]
    exact (sortBySavingsDesc_perm _).map _
  have hmap := map_alternative_candidates entry priceX 1
  constructor
  · rw [hperm.nodup_iff, hmap]
    exact hnd.filter _
  · rw [hperm.mem_iff, hmap, List.mem_filter, altOk_one alt priceX hpos]

/-- Witness for the amended C2 at X = "paneer", alt = "tofu". -/
theorem find_alternatives_ratio_one_characterization_paneer :
    ((find_cheaper_alternatives "paneer" 1).map (fun s => s.alternative)).Nodup ∧
    ("tofu" ∈ (find_cheaper_alternatives "paneer" 1).map (fun s => s.alternative) ↔
      "tofu" ∈ (⟨["tofu", "cottage cheese", "greek yogurt", "boiled eggs"],
        ⟨18, 1, 20, 265⟩, "high_protein_dairy"⟩ : EquivInfo).alternatives ∧
      priceAtMost "tofu" (⟨80, "100g", "blinkit"⟩ : PriceInfo).price = true) :=
  find_alternatives_ratio_one_characterization "paneer" "tofu"
    ⟨["tofu", "cottage cheese", "greek yogurt", "boiled eggs"],
      ⟨18, 1, 20, 265⟩, "high_protein_dairy"⟩
    ⟨80, "100g", "blinkit"⟩ (by decide) (by decide) (by decide) (by decide)

/-- Claim C6: when the narrative step fails (`none`), the analyzer
still succeeds with the same numeric fields as on any successful
narrative, and its summary is the template one built from the
computed swaps with `total_savings` the computed cost delta. -/
theorem analyze_fallback_preserves_numeric_fields (grocery_list : List String)
    (user_goal : String) (ai : AiAnalysis) :
    (analyze_grocery_list_with_ai grocery_list user_goal none).success = true ∧
    (analyze_grocery_list_with_ai grocery_list user_goal none).original_cost =
      (analyze_grocery_list_with_ai grocery_list user_goal (some ai)).original_cost ∧
    (analyze_grocery_list_with_ai grocery_list user_goal none).optimized_cost =
      (analyze_grocery_list_with_ai grocery_list user_goal (some ai)).optimized_cost ∧
    (analyze_grocery_list_with_ai grocery_list user_goal none).max_savings =
      (analyze_grocery_list_with_ai grocery_list user_goal (some ai)).max_savings ∧
    (analyze_grocery_list_with_ai grocery_list user_goal none).all_possible_swaps =
      (analyze_grocery_list_with_ai grocery_list user_goal (some ai)).all_possible_swaps ∧
    (analyze_grocery_list_with_ai grocery_list user_goal none).ai_analysis =
      ⟨fallbackTopSwaps
          (analyze_grocery_list_with_ai grocery_list user_goal none).all_possible_swaps,
        ((analyze_grocery_list_with_ai grocery_list user_goal none).original_cost : ℤ) -
          ((analyze_grocery_list_with_ai grocery_list user_goal none).optimized_cost : ℤ),
        "All alternatives maintain similar nutritional profiles.",
        "Focus on swapping expensive items first for maximum savings!"⟩ := by
  unfold analyze_grocery_list_with_ai
  rcases computeSwaps grocery_list with ⟨s, o, p⟩
  exact ⟨rfl, rfl, rfl, rfl, rfl, rfl⟩

/-- Claim C7: two calls of the analyzer on the same list and goal
yield identical numeric output, whatever the narrative step did on
either call — the computation reads only the immutable tables. -/
theorem analyze_numeric_fields_deterministic (grocery_list : List String)
    (user_goal : String) (n₁ n₂ : Option AiAnalysis) :
    (analyze_grocery_list_with_ai grocery_list user_goal n₁).original_cost =
      (analyze_grocery_list_with_ai grocery_list user_goal n₂).original_cost ∧
    (analyze_grocery_list_with_ai grocery_list user_goal n₁).optimized_cost =
      (analyze_grocery_list_with_ai grocery_list user_goal n₂).optimized_cost ∧
    (analyze_grocery_list_with_ai grocery_list user_goal n₁).max_savings =
      (analyze_grocery_list_with_ai grocery_list user_goal n₂).max_savings ∧
    (analyze_grocery_list_with_ai grocery_list user_goal n₁).all_possible_swaps =
      (analyze_grocery_list_with_ai grocery_list user_goal n₂).all_possible_swaps := by
  unfold analyze_grocery_list_with_ai
  rcases computeSwaps grocery_list with ⟨s, o, p⟩
  cases n₁ <;> cases n₂ <;> exact ⟨rfl, rfl, rfl, rfl⟩

/-- Counterexample to C1 as stated: on `["paneer", "chicken breast"]`
the optimized cost is 22 (paneer→boiled eggs at 10, chicken
breast→chickpeas at 12) and the savings 93, not 80 and 35; the
recommended swaps are not just paneer→tofu. -/
theorem analyze_paneer_chicken_not_single_tofu_swap :
    (analyze_grocery_list_with_ai ["paneer", "chicken breast"] "weight_loss"
      none).optimized_cost = 22 ∧
    (analyze_grocery_list_with_ai ["paneer", "chicken breast"] "weight_loss"
      none).optimized_cost ≠ 80 ∧
    (analyze_grocery_list_with_ai ["paneer", "chicken breast"] "weight_loss"
      none).max_savings = 93 ∧
    (analyze_grocery_list_with_ai ["paneer", "chicken breast"] "weight_loss"
      none).max_savings ≠ 35 ∧
    (analyze_grocery_list_with_ai ["paneer", "chicken breast"] "weight_loss"
      none).ai_analysis.recommended_swaps.map (fun w => (w.original, w.replacement)) ≠
      [("paneer", "tofu")] := by decide

/-- Claim C1 (amended): on `["paneer", "chicken breast"]` with goal
"weight_loss" the analyzer computes total original cost 115; both
items have qualifying substitutes (paneer: boiled eggs, tofu, cottage
cheese; chicken breast: chickpeas), the best being paneer→boiled eggs
(10) and chicken breast→chickpeas (12); the total optimized cost is
22 with savings 93, and the recommended swaps are paneer→boiled eggs
and chicken breast→chickpeas. -/
theorem analyze_paneer_chicken_costs :
    (analyze_grocery_list_with_ai ["paneer", "chicken breast"] "weight_loss"
      none).original_cost = 115 ∧
    (analyze_grocery_list_with_ai ["paneer", "chicken breast"] "weight_loss"
      none).optimized_cost = 22 ∧
    (analyze_grocery_list_with_ai ["paneer", "chicken breast"] "weight_loss"
      none).max_savings = 93 ∧
    (analyze_grocery_list_with_ai ["paneer", "chicken breast"] "weight_loss"
      none).all_possible_swaps.map
        (fun p => (p.1, p.2.map (fun s => s.alternative))) =
      [("paneer", ["boiled eggs", "tofu", "cottage cheese"]),
        ("chicken breast", ["chickpeas"])] ∧
    (analyze_grocery_list_with_ai ["paneer", "chicken breast"] "weight_loss"
      none).ai_analysis.recommended_swaps.map (fun w => (w.original, w.replacement)) =
      [("paneer", "boiled eggs"), ("chicken breast", "chickpeas")] := by decide

/-- Counterexample to C3 as stated:
`find_cheaper_alternatives("paneer", 0.8)` returns three suggestions,
not one, and the tofu suggestion's `savings_percent` is the rounded
43.8, not 43.75. -/
theorem find_alternatives_paneer_not_single_suggestion :
    (find_cheaper_alternatives "paneer" (mkRat 4 5)).length = 3 ∧
    (find_cheaper_alternatives "paneer" (mkRat 4 5)).length ≠ 1 ∧
    (find_cheaper_alternatives "paneer" (mkRat 4 5)).map
      (fun s => (s.alternative, s.savings_percent)) =
      [("boiled eggs", mkRat 175 2), ("tofu", mkRat 219 5), ("cottage cheese", 25)] ∧
    mkRat 219 5 ≠ mkRat 175 4 := by decide

/-- Claim C3 (amended): `find_cheaper_alternatives("paneer", 0.8)`
returns exactly three suggestions, ordered boiled eggs (savings 70),
tofu (savings 35), cottage cheese (savings 20); the tofu suggestion is
{alternative: "tofu", original_price: 80, alternative_price: 45,
savings: 35, savings_percent: 43.8}. -/
theorem find_alternatives_paneer_three_suggestions :
    (find_cheaper_alternatives "paneer" (mkRat 4 5)).map
      (fun s => (s.alternative, s.original_price, s.alternative_price, s.savings)) =
      [("boiled eggs", 80, 10, 70), ("tofu", 80, 45, 35), ("cottage cheese", 80, 60, 20)] ∧
    (find_cheaper_alternatives "paneer" (mkRat 4 5))[1]? =
      some ⟨"tofu", 80, 45, 35, mkRat 219 5, "high_protein_dairy", "bigbasket"⟩ := by
  decide
